import Mathlib

/-!
Verification of the report-viewer code of the riskanalysis repository
(`src/app.py` and `src/RiskAnalysis_Advanced.py`) against its
natural-language specification.

The two Python files are both Streamlit viewer variants.  Their data is a
pandas `DataFrame` per Excel sheet; we embed a frame as an explicit column
list, an index cell list, and a row-major cell matrix.  pandas scalar cells
are strings, numbers, datetimes or missing values (`NaN` / `NaT`); we embed
them as the inductive `Cell`, with `Cell.missing` standing for both `NaN`
and `NaT`.  Numbers are embedded as rationals (the claims under study never
depend on floating-point rounding of the data itself).
-/

/-- String constants used by the source (column names, sheet names, lookup
keys).  They are bound once here and referred to by name below. -/
def unnamedColName : String := "Unnamed: 0"

def dateColName : String := "Date"

def metricColName : String := "Metric"

def valueColName : String := "Value"

def finalValueName : String := "Final Value"

def totalPnLName : String := "Total PnL"

def cagrName : String := "Annualized Return (CAGR)"

def annVolName : String := "Annualized Volatility"

def sharpeName : String := "Sharpe Ratio"

def betaName : String := "Beta vs benchmark"

def maxDDName : String := "Maximum Drawdown"

/-- The key the viewer's Volatility card looks up (`app.py` line 171,
`RiskAnalysis_Advanced.py` line 100). -/
def volLookupName : String := "Volatility (Annualized)"

def pvSheetName : String := "Portfolio Value"

def ddSheetName : String := "Drawdown"

def rsSheetName : String := "Rolling Sharpe"

def returnsSheetName : String := "Daily Returns"

def priceSheetName : String := "Price Data"

def summarySheetName : String := "Summary Metrics"

/-- A pandas scalar cell: a string, a number (rational), a datetime, or a
missing value (`NaN`/`NaT`). -/
inductive Cell where
  | str (s : String)
  | num (q : ℚ)
  | date (d : ℕ)
  | missing
deriving DecidableEq

/-- A pandas DataFrame: column labels, index labels and row-major cells.
`pd.read_excel` yields frames whose index is a fresh `RangeIndex`. -/
structure DataFrame where
  cols : List String
  index : List Cell
  rows : List (List Cell)
deriving DecidableEq

instance : Inhabited DataFrame := ⟨⟨[], [], []⟩⟩

/-- Digit-string parser helper used by the date parser. -/
def digitsToNat : List Char → ℕ → Option ℕ
  | [], acc => some acc
  | c :: cs, acc =>
      if c.isDigit then digitsToNat cs (acc * 10 + (c.toNat - 48)) else none

/-- Split a character list on the dash character. -/
def splitDashAux : List Char → List Char → List (List Char)
  | [], acc => [acc.reverse]
  | c :: cs, acc =>
      if c = '-' then acc.reverse :: splitDashAux cs [] else splitDashAux cs (c :: acc)

/-- Parse an ISO `YYYY-MM-DD` date string to the order-preserving encoding
`y*10000 + m*100 + d`.  This is the shape the generator's Excel export
serializes its dates into; `pd.to_datetime` accepts more shapes, but every
string this parser rejects that pandas would accept is irrelevant to the
claims (the counterexamples below only use strings pandas also rejects). -/
def parseDateString (s : String) : Option ℕ :=
  match splitDashAux s.toList [] with
  | [y, m, d] =>
      match digitsToNat y 0, digitsToNat m 0, digitsToNat d 0 with
      | some yn, some mn, some dn =>
          if y.length = 4 ∧ 1 ≤ m.length ∧ m.length ≤ 2 ∧ 1 ≤ d.length ∧ d.length ≤ 2
              ∧ 1 ≤ mn ∧ mn ≤ 12 ∧ 1 ≤ dn ∧ dn ≤ 31 then
            some (yn * 10000 + mn * 100 + dn)
          else none
      | _, _, _ => none
  | _ => none

/-- `pd.to_datetime(cell, errors="coerce")` on one scalar: datetimes pass
through, parseable strings become datetimes, unparseable strings and missing
values coerce to `NaT` (`Cell.missing`).  A raw number is interpreted by
pandas as a nanosecond offset from the 1970-01-01 epoch, hence lands on the
epoch date for any realistically sized spreadsheet number. -/
def toDatetimeCoerce : Cell → Cell
  | Cell.str s =>
      match parseDateString s with
      | some d => Cell.date d
      | none => Cell.missing
  | Cell.num _ => Cell.date 19700101
  | Cell.date d => Cell.date d
  | Cell.missing => Cell.missing

/-- `if "Unnamed: 0" in df.columns: df.rename(columns={"Unnamed: 0": "Date"},
inplace=True)` — `app.py` lines 101–102. -/
def renameUnnamed (df : DataFrame) : DataFrame :=
  if unnamedColName ∈ df.cols then
    { df with cols := df.cols.map (fun c => if c = unnamedColName then dateColName else c) }
  else df

/-- `if "Date" not in df.columns: df.reset_index(inplace=True);
df.rename(columns={df.columns[0]: "Date"}, inplace=True)` — `app.py` lines
103–105.  `reset_index` turns the current index into a new first column
(and installs a fresh `RangeIndex`), which the rename then labels `Date`. -/
def resetIndexIfNoDate (df : DataFrame) : DataFrame :=
  if dateColName ∈ df.cols then df
  else
    { cols := dateColName :: df.cols
      index := (List.range df.rows.length).map (fun i => Cell.num i)
      rows := (df.index.zip df.rows).map (fun p => p.1 :: p.2) }

/-- `df["Date"] = pd.to_datetime(df["Date"], errors="coerce")` — `app.py`
line 106.  Writes the coerced date column back in place. -/
def coerceDateCol (df : DataFrame) : DataFrame :=
  let j := df.cols.indexOf dateColName
  { df with
      rows := df.rows.map
        (fun r => r.set j (toDatetimeCoerce ((r.get? j).getD Cell.missing))) }

/-- `df = df.set_index("Date")` — `app.py` line 107.  The date column
becomes the index and is removed from the data columns. -/
def setIndexDate (df : DataFrame) : DataFrame :=
  let j := df.cols.indexOf dateColName
  { cols := df.cols.eraseIdx j
    index := df.rows.map (fun r => (r.get? j).getD Cell.missing)
    rows := df.rows.map (fun r => r.eraseIdx j) }

/-- Whether a cell can live in a pandas numeric-dtype (`float64`/`int64`)
column: numbers and `NaN`s. -/
def Cell.isNumericOrNaN : Cell → Bool
  | Cell.num _ => true
  | Cell.missing => true
  | _ => false

/-- The column positions `df.select_dtypes(include=["number"])` keeps: a
column has a numeric dtype exactly when every cell in it is a number or
`NaN`. -/
def numericColIdxs (df : DataFrame) : List ℕ :=
  (List.range df.cols.length).filter
    (fun j => df.rows.all (fun r => ((r.get? j).getD Cell.missing).isNumericOrNaN))

/-- `df = df.select_dtypes(include=["number"])` — `app.py` line 108. -/
def selectNumeric (df : DataFrame) : DataFrame :=
  let js := numericColIdxs df
  { cols := js.filterMap (fun j => df.cols.get? j)
    index := df.index
    rows := df.rows.map (fun r => js.filterMap (fun j => r.get? j)) }

/-- `df.dropna()` — `app.py` line 110.  Drops every row that contains a
missing value in some column.  Missing labels in the index (`NaT`) are NOT
consulted: `dropna` looks at the data cells only. -/
def dropna (df : DataFrame) : DataFrame :=
  let kept := (df.index.zip df.rows).filter
    (fun p => p.2.all (fun c => decide (c ≠ Cell.missing)))
  { cols := df.cols
    index := kept.map Prod.fst
    rows := kept.map Prod.snd }

/-- `clean_for_chart` — `app.py` lines 99–110, identical in
`RiskAnalysis_Advanced.py` lines 60–71.  (`df.columns.map(str)` on line 109
is the identity in this embedding, where labels are already strings; the
initial `df = df.copy()` is treated separately in the heap model below.) -/
def clean_for_chart (df : DataFrame) : DataFrame :=
  dropna (selectNumeric (setIndexDate (coerceDateCol (resetIndexIfNoDate (renameUnnamed df)))))

/-- Every cell of every row kept by `select_dtypes(include=["number"])` lives
in a numeric-dtype column, hence is a number or `NaN`. -/
theorem selectNumeric_cells (df : DataFrame) :
    ∀ r ∈ (selectNumeric df).rows, ∀ c ∈ r, c.isNumericOrNaN = true := by
  intro r hr c hc
  simp only [selectNumeric, List.mem_map] at hr
  obtain ⟨r0, hr0, rfl⟩ := hr
  simp only [List.mem_filterMap] at hc
  obtain ⟨j, hj, hget⟩ := hc
  simp only [numericColIdxs, List.mem_filter, List.mem_range] at hj
  have hall := hj.2
  rw [List.all_eq_true] at hall
  have hnum := hall r0 hr0
  rw [hget] at hnum
  simpa using hnum

/-- Every row surviving `dropna()` is one of the input rows and has no
missing cell. -/
theorem dropna_rows_sub (df : DataFrame) :
    ∀ r ∈ (dropna df).rows, r ∈ df.rows ∧ ∀ c ∈ r, c ≠ Cell.missing := by
  intro r hr
  simp only [dropna, List.mem_map] at hr
  obtain ⟨p, hp, rfl⟩ := hr
  rw [List.mem_filter] at hp
  refine ⟨(List.of_mem_zip hp.1).2, ?_⟩
  intro c hc
  have hall := hp.2
  rw [List.all_eq_true] at hall
  simpa using hall c hc

/-- The index and row list of a `dropna()` output have equal length. -/
theorem dropna_len (df : DataFrame) :
    (dropna df).index.length = (dropna df).rows.length := by
  simp [dropna]

def garbageStr : String := "garbage"

/-- A `Portfolio Value`-shaped sheet with one row whose `Date` cell does not
parse as a date but whose numeric value is present. -/
def exUnparsed : DataFrame :=
  ⟨[dateColName, valueColName], [Cell.num 0], [[Cell.str garbageStr, Cell.num 5]]⟩

/-- C1 counterexample: the claim says every row whose date value fails to
parse is absent from `clean_for_chart`'s output.  On `exUnparsed` the single
row's date cell coerces to `NaT`, yet the row survives: `dropna()` inspects
only the data cells, never the (by then) `NaT` index label.  The returned
series still has the row, indexed by the missing-date marker. -/
theorem clean_for_chart_keeps_unparsed_date_row :
    toDatetimeCoerce (Cell.str garbageStr) = Cell.missing ∧
      clean_for_chart exUnparsed =
        ⟨[valueColName], [Cell.missing], [[Cell.num 5]]⟩ ∧
      ¬ (clean_for_chart exUnparsed).rows = [] := by
  have he : clean_for_chart exUnparsed =
      ⟨[valueColName], [Cell.missing], [[Cell.num 5]]⟩ := rfl
  refine ⟨rfl, he, ?_⟩
  rw [he]
  simp

/-- C1 (amended): `clean_for_chart` returns only numeric-typed columns and
no returned row contains a missing value (every surviving cell is a number),
and the date index stays aligned with the rows; rows whose date fails to
parse are, however, retained (with a `NaT` index entry) whenever their
numeric cells are all present — see the counterexample above. -/
theorem clean_for_chart_numeric_and_complete (df : DataFrame) :
    (∀ r ∈ (clean_for_chart df).rows, ∀ c ∈ r, ∃ q, c = Cell.num q) ∧
      (clean_for_chart df).index.length = (clean_for_chart df).rows.length := by
  constructor
  · intro r hr c hc
    have h1 := dropna_rows_sub _ r hr
    have h2 := selectNumeric_cells _ r h1.1 c hc
    have h3 := h1.2 c hc
    cases c with
    | num q => exact ⟨q, rfl⟩
    | str s => simp [Cell.isNumericOrNaN] at h2
    | date d => simp [Cell.isNumericOrNaN] at h2
    | missing => exact absurd rfl h3
  · exact dropna_len _

/-- Every index label surviving `dropna()` was an index label of the
input. -/
theorem dropna_index_sub (df : DataFrame) :
    ∀ c ∈ (dropna df).index, c ∈ df.index := by
  intro c hc
  simp only [dropna, List.mem_map] at hc
  obtain ⟨p, hp, rfl⟩ := hc
  rw [List.mem_filter] at hp
  exact (List.of_mem_zip hp.1).1

/-- Writing the coerced date back into position `j` of a row and reading
position `j` back yields exactly the coerced original cell (also when the
row is too short for `j`, where both sides are `NaT`). -/
theorem set_get_coerce (r : List Cell) (j : ℕ) :
    (((r.set j (toDatetimeCoerce ((r.get? j).getD Cell.missing))).get? j).getD Cell.missing)
      = toDatetimeCoerce ((r.get? j).getD Cell.missing) := by
  rw [List.get?_eq_getElem?, List.getElem?_set_self', ← List.get?_eq_getElem?]
  cases h : r.get? j with
  | none => simp [h, toDatetimeCoerce]
  | some c => simp [h]

/-- C4: `clean_for_chart` tolerates both date-column shapes.  First part:
whenever the sheet carries an explicit `Date` column (which is what the
`Unnamed: 0` shape is renamed into), every index label of the result is the
date-coerced cell of that column in some input row.  Second part: a sheet
whose first column is the unlabeled `Unnamed: 0` yields exactly the same
cleaned series as the same sheet with that column labeled `Date`. -/
theorem clean_for_chart_two_date_shapes :
    (∀ df : DataFrame, unnamedColName ∉ df.cols → dateColName ∈ df.cols →
        ∀ c ∈ (clean_for_chart df).index,
          c ∈ df.rows.map
            (fun r => toDatetimeCoerce
              ((r.get? (df.cols.indexOf dateColName)).getD Cell.missing))) ∧
      (∀ (rest : List String) (idx : List Cell) (rows : List (List Cell)),
          dateColName ∉ rest → unnamedColName ∉ rest →
            clean_for_chart ⟨unnamedColName :: rest, idx, rows⟩ =
              clean_for_chart ⟨dateColName :: rest, idx, rows⟩) := by
  constructor
  · intro df hU hD c hc
    have h1 : renameUnnamed df = df := by
      simp only [renameUnnamed, if_neg hU]
    have h2 : resetIndexIfNoDate df = df := by
      simp only [resetIndexIfNoDate, if_pos hD]
    rw [clean_for_chart, h1, h2] at hc
    have hc2 := dropna_index_sub _ c hc
    simp only [selectNumeric, setIndexDate, coerceDateCol, List.map_map] at hc2
    simp only [List.mem_map] at hc2
    obtain ⟨r, hr, hrc⟩ := hc2
    rw [List.mem_map]
    refine ⟨r, hr, ?_⟩
    rw [← hrc]
    simp only [Function.comp]
    exact (set_get_coerce r _).symm
  · intro rest idx rows hD hU
    have hne : dateColName ≠ unnamedColName := by decide
    have h1 : renameUnnamed ⟨unnamedColName :: rest, idx, rows⟩ =
        ⟨dateColName :: rest, idx, rows⟩ := by
      simp only [renameUnnamed, if_pos (List.mem_cons_self unnamedColName rest)]
      have hmap : rest.map (fun c => if c = unnamedColName then dateColName else c) = rest := by
        rw [List.map_congr_left (g := fun c => c), List.map_id']
        intro a ha
        rw [if_neg]
        intro hcon
        exact hU (hcon ▸ ha)
      simp [hmap]
    have h2 : renameUnnamed ⟨dateColName :: rest, idx, rows⟩ =
        ⟨dateColName :: rest, idx, rows⟩ := by
      rw [renameUnnamed, if_neg]
      intro hcon
      rcases List.mem_cons.1 hcon with h | h
      · exact hne h.symm
      · exact hU h
    rw [clean_for_chart, clean_for_chart, h1, h2]

def dateStrA : String := "2020-01-02"

def dateStrB : String := "2020-01-05"

/-- A sheet carrying its dates in an explicit `Date` column (second
position). -/
def exDateCol : DataFrame :=
  ⟨[valueColName, dateColName], [Cell.num 0], [[Cell.num 7, Cell.str dateStrA]]⟩

/-- C4 witness: the two-shape theorem applied to concrete sheets — the date
label of the cleaned explicit-`Date` sheet originates from that column, and
an `Unnamed: 0` first column yields the same cleaned series as a `Date`
label would. -/
theorem clean_for_chart_two_date_shapes_w :
    (Cell.date 20200102 ∈ exDateCol.rows.map
        (fun r => toDatetimeCoerce
          ((r.get? (exDateCol.cols.indexOf dateColName)).getD Cell.missing))) ∧
      clean_for_chart ⟨unnamedColName :: [valueColName], [Cell.num 0],
          [[Cell.str dateStrB, Cell.num 3]]⟩ =
        clean_for_chart ⟨dateColName :: [valueColName], [Cell.num 0],
          [[Cell.str dateStrB, Cell.num 3]]⟩ :=
  ⟨clean_for_chart_two_date_shapes.1 exDateCol (by decide) (by decide)
      (Cell.date 20200102) (by decide),
    clean_for_chart_two_date_shapes.2 [valueColName] [Cell.num 0]
      [[Cell.str dateStrB, Cell.num 3]] (by decide) (by decide)⟩

/-- Heap model for the caller-frame claim: Python `DataFrame` objects live
in a heap of cells addressed by allocation order, and a variable is an
address.  `clean_for_chart`'s body first runs `df = df.copy()` (a fresh
allocation), then applies its three in-place mutations (`rename(...,
inplace=True)`, `reset_index(inplace=True)` + `rename(..., inplace=True)`,
and the `df["Date"] = ...` column write) to the copy's cell, and finally
rebinds `df` to fresh objects built by `set_index` / `select_dtypes` /
`dropna`.  The result is a fresh address holding the cleaned frame. -/
def cleanForChartProc (h : List DataFrame) (ref : ℕ) : List DataFrame × ℕ :=
  let r := h.length
  let h1 := h ++ [h.getD ref default]
  let h2 := h1.set r (renameUnnamed (h1.getD r default))
  let h3 := h2.set r (resetIndexIfNoDate (h2.getD r default))
  let h4 := h3.set r (coerceDateCol (h3.getD r default))
  let res := dropna (selectNumeric (setIndexDate (h4.getD r default)))
  (h4 ++ [res], h4.length)

/-- C9: `clean_for_chart` leaves its argument unchanged — every heap cell
that existed before the call (in particular the caller's sheet at `ref`)
holds the same frame afterwards; all mutation hits the private copy. -/
theorem clean_for_chart_preserves_caller_heap (h : List DataFrame) (ref : ℕ) :
    ∀ i, i < h.length → (cleanForChartProc h ref).1.get? i = h.get? i := by
  intro i hi
  have hne : h.length ≠ i := by omega
  simp only [cleanForChartProc, List.get?_eq_getElem?]
  rw [List.getElem?_append_left, List.getElem?_set_ne hne, List.getElem?_set_ne hne,
    List.getElem?_set_ne hne, List.getElem?_append_left hi]
  simp only [List.length_set, List.length_append, List.length_cons, List.length_nil]
  omega

/-- C9 witness: the theorem applied to a one-cell heap holding a concrete
sheet. -/
theorem clean_for_chart_preserves_caller_heap_w :
    (cleanForChartProc [exDateCol] 0).1.get? 0 = [exDateCol].get? 0 :=
  clean_for_chart_preserves_caller_heap [exDateCol] 0 0 (by decide)

/-- The date number carried by a cell (`0` for non-date cells; only applied
under the all-dates hypothesis below). -/
def dateValD : Cell → ℕ
  | Cell.date d => d
  | _ => 0

/-- Label comparison used by `.loc` slicing against the start bound. -/
def cellDateLt (c : Cell) (n : ℕ) : Bool :=
  match c with
  | Cell.date d => decide (d < n)
  | _ => false

/-- Label comparison used by `.loc` slicing against the end bound. -/
def cellDateLe (c : Cell) (n : ℕ) : Bool :=
  match c with
  | Cell.date d => decide (d ≤ n)
  | _ => false

/-- `pv.loc[str(start_date):str(end_date)]` — `app.py` line 149 (and lines
186, 191; `RiskAnalysis_Advanced.py` lines 85, 113, 118).  On a monotone
`DatetimeIndex`, pandas label slicing takes the contiguous segment from the
first label not before `start` up to the last label not after `end`, both
bounds inclusive. -/
def loc_slice (df : DataFrame) (s e : ℕ) : DataFrame :=
  let kept := ((df.index.zip df.rows).dropWhile (fun p => cellDateLt p.1 s)).takeWhile
    (fun p => cellDateLe p.1 e)
  { cols := df.cols
    index := kept.map Prod.fst
    rows := kept.map Prod.snd }

/-- A pairwise bound on a list transfers to the zipped list through the
first components. -/
theorem pairwise_zip_left {α β : Type} (R : α → α → Prop) :
    ∀ (l : List α) (l2 : List β), l.Pairwise R →
      (l.zip l2).Pairwise (fun p q => R p.1 q.1) := by
  intro l
  induction l with
  | nil => intro l2 _; simp
  | cons a tl ih =>
      intro l2 hp
      cases l2 with
      | nil => simp
      | cons b tl2 =>
          rw [List.pairwise_cons] at hp
          rw [List.zip_cons_cons, List.pairwise_cons]
          exact ⟨fun q hq => hp.1 q.1 (List.of_mem_zip hq).1, ih tl2 hp.2⟩

/-- On a date-labelled, date-sorted pair list, the `takeWhile` half of the
`.loc` slice keeps exactly the members dated at most `e`. -/
theorem takeWhile_le_mem (e : ℕ) :
    ∀ (l : List (Cell × List Cell)),
      (∀ x ∈ l, x.1 = Cell.date (dateValD x.1)) →
      l.Pairwise (fun a b => dateValD a.1 ≤ dateValD b.1) →
      ∀ x, (x ∈ l.takeWhile (fun p => cellDateLe p.1 e) ↔ x ∈ l ∧ dateValD x.1 ≤ e) := by
  intro l
  induction l with
  | nil => intro _ _ x; simp
  | cons a tl ih =>
      intro hdat hp x
      rw [List.pairwise_cons] at hp
      have hda := hdat a (List.mem_cons_self a tl)
      have hdtl : ∀ x ∈ tl, x.1 = Cell.date (dateValD x.1) :=
        fun x hx => hdat x (List.mem_cons_of_mem a hx)
      have hpred : cellDateLe a.1 e = decide (dateValD a.1 ≤ e) := by
        rw [hda]
        rfl
      by_cases ha : dateValD a.1 ≤ e
      · rw [List.takeWhile_cons_of_pos (by rw [hpred]; simpa using ha)]
        simp only [List.mem_cons]
        rw [ih hdtl hp.2 x]
        constructor
        · rintro (rfl | h)
          · exact ⟨Or.inl rfl, ha⟩
          · exact ⟨Or.inr h.1, h.2⟩
        · rintro ⟨rfl | h, he⟩
          · exact Or.inl rfl
          · exact Or.inr ⟨h, he⟩
      · rw [List.takeWhile_cons_of_neg (by rw [hpred]; simpa using ha)]
        simp only [List.not_mem_nil, false_iff, List.mem_cons]
        rintro ⟨rfl | h, he⟩
        · exact ha he
        · exact ha (le_trans (hp.1 x h) he)

/-- On a date-labelled, date-sorted pair list, the `dropWhile` half of the
`.loc` slice keeps exactly the members dated at least `s`. -/
theorem dropWhile_ge_mem (s : ℕ) :
    ∀ (l : List (Cell × List Cell)),
      (∀ x ∈ l, x.1 = Cell.date (dateValD x.1)) →
      l.Pairwise (fun a b => dateValD a.1 ≤ dateValD b.1) →
      ∀ x, (x ∈ l.dropWhile (fun p => cellDateLt p.1 s) ↔ x ∈ l ∧ s ≤ dateValD x.1) := by
  intro l
  induction l with
  | nil => intro _ _ x; simp
  | cons a tl ih =>
      intro hdat hp x
      rw [List.pairwise_cons] at hp
      have hda := hdat a (List.mem_cons_self a tl)
      have hdtl : ∀ x ∈ tl, x.1 = Cell.date (dateValD x.1) :=
        fun x hx => hdat x (List.mem_cons_of_mem a hx)
      have hpred : cellDateLt a.1 s = decide (dateValD a.1 < s) := by
        rw [hda]
        rfl
      by_cases ha : dateValD a.1 < s
      · rw [List.dropWhile_cons_of_pos (by rw [hpred]; simpa using ha)]
        rw [ih hdtl hp.2 x]
        simp only [List.mem_cons]
        constructor
        · rintro ⟨h, hs⟩
          exact ⟨Or.inr h, hs⟩
        · rintro ⟨rfl | h, hs⟩
          · omega
          · exact ⟨h, hs⟩
      · rw [List.dropWhile_cons_of_neg (by rw [hpred]; simpa using ha)]
        simp only [List.mem_cons]
        constructor
        · rintro (rfl | h)
          · exact ⟨Or.inl rfl, by omega⟩
          · exact ⟨Or.inr h, le_trans (by omega) (hp.1 x h)⟩
        · rintro ⟨h, _⟩
          exact h

/-- C6: on an artifact-shaped series (all index labels are dates, index
sorted ascending — which is what the generator's exports and
`clean_for_chart` produce for them), the viewer's date-range filter
`pv.loc[str(start):str(end)]` keeps exactly the rows whose date lies in the
inclusive range `[start, end]`; in particular rows at either boundary are
retained. -/
theorem loc_slice_inclusive_range (df : DataFrame) (s e : ℕ)
    (hdates : ∀ c ∈ df.index, c = Cell.date (dateValD c))
    (hsorted : df.index.Pairwise (fun a b => dateValD a ≤ dateValD b)) :
    ∀ (d : ℕ) (r : List Cell),
      ((Cell.date d, r) ∈ (loc_slice df s e).index.zip (loc_slice df s e).rows ↔
        ((Cell.date d, r) ∈ df.index.zip df.rows ∧ s ≤ d ∧ d ≤ e)) := by
  intro d r
  have hzip : (loc_slice df s e).index.zip (loc_slice df s e).rows =
      ((df.index.zip df.rows).dropWhile (fun p => cellDateLt p.1 s)).takeWhile
        (fun p => cellDateLe p.1 e) := by
    simp only [loc_slice]
    rw [List.zip_map']
    exact List.map_id'' (fun p => rfl) _
  have hq : ∀ p ∈ df.index.zip df.rows, p.1 = Cell.date (dateValD p.1) := by
    intro p hp
    exact hdates p.1 (List.of_mem_zip hp).1
  have hpairs : (df.index.zip df.rows).Pairwise
      (fun p q => dateValD p.1 ≤ dateValD q.1) :=
    pairwise_zip_left _ df.index df.rows hsorted
  have hsub : ((df.index.zip df.rows).dropWhile
      (fun p => cellDateLt p.1 s)).Sublist (df.index.zip df.rows) :=
    List.dropWhile_sublist _
  rw [hzip]
  rw [takeWhile_le_mem e _ (fun x hx => hq x (hsub.subset hx)) (hpairs.sublist hsub)
    (Cell.date d, r)]
  rw [dropWhile_ge_mem s _ hq hpairs (Cell.date d, r)]
  simp only [dateValD]
  tauto

def df3dates : DataFrame :=
  ⟨[valueColName], [Cell.date 20200101, Cell.date 20200115, Cell.date 20200131],
    [[Cell.num 1], [Cell.num 2], [Cell.num 3]]⟩

/-- C6 witness: on a concrete three-row series, both boundary rows of the
range `[20200101, 20200115]` are retained and the out-of-range row is
dropped. -/
theorem loc_slice_inclusive_range_w :
    ((Cell.date 20200101, [Cell.num 1]) ∈
        (loc_slice df3dates 20200101 20200115).index.zip
          (loc_slice df3dates 20200101 20200115).rows) ∧
      ((Cell.date 20200115, [Cell.num 2]) ∈
        (loc_slice df3dates 20200101 20200115).index.zip
          (loc_slice df3dates 20200101 20200115).rows) ∧
      ¬ ((Cell.date 20200131, [Cell.num 3]) ∈
        (loc_slice df3dates 20200101 20200115).index.zip
          (loc_slice df3dates 20200101 20200115).rows) :=
  ⟨(loc_slice_inclusive_range df3dates 20200101 20200115 (by decide) (by decide)
      20200101 [Cell.num 1]).mpr ⟨by decide, by decide, by decide⟩,
    (loc_slice_inclusive_range df3dates 20200101 20200115 (by decide) (by decide)
      20200115 [Cell.num 2]).mpr ⟨by decide, by decide, by decide⟩,
    fun hmem =>
      by simpa using ((loc_slice_inclusive_range df3dates 20200101 20200115 (by decide)
        (by decide) 20200131 [Cell.num 3]).mp hmem).2.2⟩

/-- Python exception kinds reaching the viewer code under study.
`fileNotFound` is the spec's `ArtifactMissing` condition (raised by
`pd.read_excel` on a nonexistent path); the others arise from the render
pipeline or the refresh subprocess. -/
inductive PyError where
  | fileNotFound
  | attributeError
  | indexError
  | valueError
  | calledProcessError
deriving DecidableEq

/-- The export artifact as loaded: one frame per sheet name. -/
def Artifact : Type := List (String × DataFrame)

instance : DecidableEq Artifact := fun a b => List.hasDecEq a b

/-- State of the artifact path on disk: absent, unreadable (some other I/O
or parse failure), or a readable workbook. -/
inductive Disk where
  | absent
  | corrupt (e : PyError)
  | present (a : Artifact)

/-- `pd.read_excel(path, sheet_name=None)`: raises `FileNotFoundError` when
the path does not exist, re-raises any other failure, else returns the
per-sheet mapping (`load_excel`, `app.py` lines 78–81 /
`RiskAnalysis_Advanced.py` lines 43–46, modulo the cache modelled
separately below). -/
def read_excel : Disk → Except PyError Artifact
  | Disk.absent => Except.error PyError.fileNotFound
  | Disk.corrupt e => Except.error e
  | Disk.present a => Except.ok a

/-- `data.get(name)` on the loaded sheet dictionary. -/
def sheetGet (a : Artifact) (name : String) : Option DataFrame :=
  (a.find? (fun p => p.1 == name)).map Prod.snd

/-- `clean_for_chart(sheet)` where the sheet may be `None` (missing sheet):
`None.copy()` raises `AttributeError`, which nothing in the viewer
catches. -/
def cleanOpt : Option DataFrame → Except PyError DataFrame
  | none => Except.error PyError.attributeError
  | some df => Except.ok (clean_for_chart df)

/-- `st.line_chart(df, y=df.columns[0], ...)`: `df.columns[0]` raises
`IndexError` when the cleaned frame kept no numeric column. -/
def chartFirstCol (df : DataFrame) : Except PyError Unit :=
  if df.cols = [] then Except.error PyError.indexError else Except.ok ()

/-- `sheet.tail(10)` in the data-explorer tabs: raises `AttributeError`
when the sheet is missing (`None`). -/
def tailView : Option DataFrame → Except PyError Unit
  | none => Except.error PyError.attributeError
  | some _ => Except.ok ()

/-- The viewer's render pipeline after a successful load, in source order
(`app.py` lines 117–205): clean and chart `Portfolio Value`, `Drawdown` and
`Rolling Sharpe` (each `.loc`-filtered to the chosen range), then show the
tails of `Daily Returns` and `Price Data`.  The summary cards never raise
(dictionary lookups with defaults).  Widget interaction (`date_input`,
query params) is not modelled; the chosen range arrives as `s`, `e`. -/
def renderPipeline (a : Artifact) (s e : ℕ) : Except PyError Unit := do
  let pv ← cleanOpt (sheetGet a pvSheetName)
  chartFirstCol (loc_slice pv s e)
  let dd ← cleanOpt (sheetGet a ddSheetName)
  chartFirstCol (loc_slice dd s e)
  let rs ← cleanOpt (sheetGet a rsSheetName)
  chartFirstCol (loc_slice rs s e)
  tailView (sheetGet a returnsSheetName)
  tailView (sheetGet a priceSheetName)

/-- What one viewer run produces for the user. -/
inductive Outcome where
  | rendered
  | stopWithRunGeneratorFirst
  | refreshOkMessage
  | refreshFailedMessage (e : PyError)
  | propagated (e : PyError)
deriving DecidableEq

/-- The `app.py` viewer: `try: data = load_excel(FILE_PATH) except
FileNotFoundError: st.error("... Please run RiskAnalysis_Advanced.py
first."); st.stop()` (lines 83–87), then the render pipeline with no
further handler — any other exception propagates to Streamlit's generic
error screen. -/
def appViewer (disk : Disk) (s e : ℕ) : Outcome :=
  match read_excel disk with
  | Except.error PyError.fileNotFound => Outcome.stopWithRunGeneratorFirst
  | Except.error err => Outcome.propagated err
  | Except.ok a =>
      match renderPipeline a s e with
      | Except.ok _ => Outcome.rendered
      | Except.error err => Outcome.propagated err

/-- The `RiskAnalysis_Advanced.py` viewer: `data = load_excel(FILE_PATH)`
(line 48) with no `try` at all — every load failure, including the missing
artifact, propagates uncaught. -/
def advViewer (disk : Disk) (s e : ℕ) : Outcome :=
  match read_excel disk with
  | Except.error err => Outcome.propagated err
  | Except.ok a =>
      match renderPipeline a s e with
      | Except.ok _ => Outcome.rendered
      | Except.error err => Outcome.propagated err

/-- The refresh button (`app.py` lines 59–66, `RiskAnalysis_Advanced.py`
lines 28–36): `try: subprocess.run(...) ... except Exception as e:
st.error(f"... Failed to refresh data ...")` — it catches EVERY exception
and converts it to a user-facing message. -/
def refreshHandler : Except PyError Unit → Outcome
  | Except.ok _ => Outcome.refreshOkMessage
  | Except.error e => Outcome.refreshFailedMessage e

/-- C3 counterexample: in the `RiskAnalysis_Advanced.py` variant the
missing-artifact condition is NOT converted to the instructional message —
the `FileNotFoundError` propagates uncaught, so the claim's "holds for
every viewer variant in the source" fails on a missing path. -/
theorem advanced_variant_uncaught_missing_artifact :
    advViewer Disk.absent 0 0 = Outcome.propagated PyError.fileNotFound ∧
      Outcome.propagated PyError.fileNotFound ≠ Outcome.stopWithRunGeneratorFirst := by
  exact ⟨rfl, by decide⟩

/-- C3 (amended): only the `app.py` variant distinguishes the
missing-artifact condition: a nonexistent path yields the "run the
generator first" stop, while any other load failure propagates as a generic
error. -/
theorem app_variant_distinguishes_artifact_missing :
    (∀ s e : ℕ, appViewer Disk.absent s e = Outcome.stopWithRunGeneratorFirst) ∧
      (∀ (s e : ℕ) (err : PyError), err ≠ PyError.fileNotFound →
        appViewer (Disk.corrupt err) s e = Outcome.propagated err) := by
  refine ⟨fun s e => rfl, fun s e err hne => ?_⟩
  cases err with
  | fileNotFound => exact absurd rfl hne
  | attributeError => rfl
  | indexError => rfl
  | valueError => rfl
  | calledProcessError => rfl

/-- C3 witness: the amended theorem at a concrete corrupt-artifact failure
and at the missing-artifact state. -/
theorem app_variant_distinguishes_artifact_missing_w :
    appViewer Disk.absent 0 0 = Outcome.stopWithRunGeneratorFirst ∧
      appViewer (Disk.corrupt PyError.valueError) 0 0 =
        Outcome.propagated PyError.valueError :=
  ⟨app_variant_distinguishes_artifact_missing.1 0 0,
    app_variant_distinguishes_artifact_missing.2 0 0 PyError.valueError (by decide)⟩

/-- C5 counterexample: the viewer does not catch exactly one failure
condition — the refresh handler catches the subprocess failure as well and
converts it to a user-facing message instead of letting it propagate. -/
theorem refresh_failure_caught_as_message :
    refreshHandler (Except.error PyError.calledProcessError) =
        Outcome.refreshFailedMessage PyError.calledProcessError ∧
      Outcome.refreshFailedMessage PyError.calledProcessError ≠
        Outcome.propagated PyError.calledProcessError := by
  exact ⟨rfl, by decide⟩

/-- C5 (amended): within the load-and-render pipeline of `app.py`, exactly
the missing-artifact condition is caught (yielding the instructional stop)
and every pipeline error — missing sheet, sheet without numeric columns —
propagates uncaught; but the refresh handler separately catches every
subprocess failure as a user-facing message, and the
`RiskAnalysis_Advanced.py` variant does not even catch the missing
artifact. -/
theorem viewer_catch_surface (s e : ℕ) :
    (∀ (a : Artifact) (err : PyError), renderPipeline a s e = Except.error err →
        appViewer (Disk.present a) s e = Outcome.propagated err) ∧
      appViewer Disk.absent s e = Outcome.stopWithRunGeneratorFirst ∧
      (∀ err : PyError,
        refreshHandler (Except.error err) = Outcome.refreshFailedMessage err) ∧
      advViewer Disk.absent s e = Outcome.propagated PyError.fileNotFound := by
  refine ⟨fun a err h => ?_, rfl, fun err => rfl, rfl⟩
  simp only [appViewer, read_excel, h]

/-- An artifact with a healthy `Portfolio Value` sheet but no `Drawdown`
sheet. -/
def exArtifactNoDD : Artifact :=
  [(pvSheetName, exDateCol)]

/-- C5 witness: on the concrete artifact missing its `Drawdown` sheet the
`AttributeError` (from `None.copy()`) propagates out of the `app.py`
pipeline, while a concrete refresh failure is caught as a message. -/
theorem viewer_catch_surface_w :
    appViewer (Disk.present exArtifactNoDD) 20200101 20200131 =
        Outcome.propagated PyError.attributeError ∧
      refreshHandler (Except.error PyError.calledProcessError) =
        Outcome.refreshFailedMessage PyError.calledProcessError :=
  ⟨(viewer_catch_surface 20200101 20200131).1 exArtifactNoDD PyError.attributeError rfl,
    (viewer_catch_surface 20200101 20200131).2.2.1 PyError.calledProcessError⟩

def FILE_PATH : String := "reports/Portfolio_Analysis_Advanced.xlsx"

/-- `@st.cache_data` on `load_excel(path)` (`app.py` lines 78–81,
`RiskAnalysis_Advanced.py` lines 43–46): Streamlit memoizes the return
value per argument within the process.  A hit returns the stored artifact
without touching the disk; a miss reads the disk and stores the result on
success (exceptions are not cached).  The disk is a function from path to
optional content, so it can change between invocations. -/
def load_excel_cached (cache : List (String × Artifact))
    (disk : String → Option Artifact) (path : String) :
    Except PyError Artifact × List (String × Artifact) :=
  match cache.find? (fun p => p.1 == path) with
  | some entry => (Except.ok entry.2, cache)
  | none =>
      match disk path with
      | some a => (Except.ok a, cache ++ [(path, a)])
      | none => (Except.error PyError.fileNotFound, cache)

/-- C7: two invocations of the cached loader with the same path inside one
process return the same artifact — the second reuses the first's result
even when the file on disk changed (`d2` is unconstrained, in particular it
may differ from `d1` or have deleted the file). -/
theorem load_excel_cached_reuses_first_result (cache : List (String × Artifact))
    (d1 d2 : String → Option Artifact) (path : String) (a : Artifact)
    (h : (load_excel_cached cache d1 path).1 = Except.ok a) :
    (load_excel_cached (load_excel_cached cache d1 path).2 d2 path).1 = Except.ok a := by
  cases hfind : cache.find? (fun p => p.1 == path) with
  | some entry =>
      simp only [load_excel_cached, hfind] at h ⊢
      exact h
  | none =>
      cases hd : d1 path with
      | none =>
          simp only [load_excel_cached, hfind, hd] at h
          exact absurd h (by simp)
      | some b =>
          simp only [load_excel_cached, hfind, hd] at h ⊢
          rw [List.find?_append, hfind]
          simp only [Option.none_or, List.find?_cons, beq_self_eq_true]
          exact h

/-- C7 witness: an empty cache, a first disk holding an artifact at the
report path, and a second disk where the file is gone — the second call
still returns the first artifact. -/
theorem load_excel_cached_reuses_first_result_w :
    (load_excel_cached
        (load_excel_cached [] (fun _ => some exArtifactNoDD) FILE_PATH).2
        (fun _ => none) FILE_PATH).1 = Except.ok exArtifactNoDD :=
  load_excel_cached_reuses_first_result [] (fun _ => some exArtifactNoDD)
    (fun _ => none) FILE_PATH exArtifactNoDD rfl

def dollarStr : String := "$"

def minusStr : String := "-"

def dotStr : String := "."

def pctStr : String := "%"

def zeroPadStr : String := "0"

def emptyStr : String := ""

def moneyZeroStr : String := "$0"

def pctZeroStr : String := "0.00%"

def numZeroStr : String := "0.00"

/-- Round a rational to the nearest integer, ties to even — the rounding
Python's fixed-point float formatting applies.  Implemented on the
numerator/denominator so it evaluates by pure integer arithmetic:
`f = ⌊q⌋` and the fractional remainder `rnum/den` is compared with `1/2`
by cross-multiplication. -/
def roundHalfEven (q : ℚ) : ℤ :=
  let d : ℤ := (q.den : ℤ)
  let f : ℤ := Int.fdiv q.num d
  let rnum : ℤ := q.num - f * d
  if 2 * rnum < d then f
  else if d < 2 * rnum then f + 1
  else if f % 2 = 0 then f else f + 1

/-- Insert a comma after every third digit, processing digits
least-significant first. -/
def commasAux : List Char → ℕ → List Char
  | [], _ => []
  | c :: cs, k =>
      if k = 3 then ',' :: c :: commasAux cs 1 else c :: commasAux cs (k + 1)

/-- Decimal digits of `n` with thousands separators (`{:,}`). -/
def natWithCommas (n : ℕ) : String :=
  String.mk ((commasAux (Nat.toDigits 10 n).reverse 0).reverse)

/-- Python `f"${v:,.0f}"` — `app.py` line 165. -/
def formatMoney (q : ℚ) : String :=
  let n := roundHalfEven q
  (if n < 0 then dollarStr ++ minusStr else dollarStr) ++ natWithCommas n.natAbs

/-- `q` scaled by 100 and rounded to the nearest integer, ties to even.
Equal to `roundHalfEven (q * 100)`, but scaling the numerator keeps the
whole computation in integer arithmetic. -/
def round2dpHalfEven (q : ℚ) : ℤ :=
  let d : ℤ := (q.den : ℤ)
  let n : ℤ := q.num * 100
  let f : ℤ := Int.fdiv n d
  let rnum : ℤ := n - f * d
  if 2 * rnum < d then f
  else if d < 2 * rnum then f + 1
  else if f % 2 = 0 then f else f + 1

/-- Python `f"{v:.2f}"` — two fixed decimal places. -/
def formatFixed2 (q : ℚ) : String :=
  let n := round2dpHalfEven q
  let s := n.natAbs
  let ip := s / 100
  let fp := s % 100
  (if n < 0 then minusStr else emptyStr) ++ Nat.repr ip ++ dotStr ++
    (if fp < 10 then zeroPadStr ++ Nat.repr fp else Nat.repr fp)

/-- The metrics dictionary built by `for _, row in summary.iterrows():
metrics[row["Metric"]] = row["Value"]` under the `if summary is not None
and not summary.empty` guard (`app.py` lines 157–160).  Later rows
overwrite earlier ones, as in a Python dict.  (A summary sheet lacking the
`Metric`/`Value` columns would raise `KeyError`; the claims under study
only concern well-formed summary sheets.) -/
def buildMetrics : Option DataFrame → List (Cell × Cell)
  | none => []
  | some df =>
      if df.rows = [] ∨ df.cols = [] then []
      else
        df.rows.map (fun r =>
          ((r.get? (df.cols.indexOf metricColName)).getD Cell.missing,
            (r.get? (df.cols.indexOf valueColName)).getD Cell.missing))

/-- `metrics.get(key, 0)`: last binding of the key wins; the default is
returned when the key was never bound. -/
def metricsGetC (m : List (Cell × Cell)) (k d : Cell) : Cell :=
  ((m.reverse.find? (fun p => p.1 == k)).map Prod.snd).getD d

/-- The seven metric names of the Summary Metrics sheet, in the spec's
fixed order (spec §3). -/
def specMetricNames : List String :=
  [finalValueName, totalPnLName, cagrName, annVolName, sharpeName, betaName, maxDDName]

/-- The four keys the viewer's summary cards look up (`app.py` lines
164–174). -/
def viewerLookupNames : List String :=
  [finalValueName, cagrName, volLookupName, sharpeName]

/-- `f"${metrics.get('Final Value', 0):,.0f}"` — `app.py` line 165.  A
non-numeric stored value would make the format specifier raise, which the
embedding reports as `none`. -/
def cardFinalValue (s : Option DataFrame) : Option String :=
  match metricsGetC (buildMetrics s) (Cell.str finalValueName) (Cell.num 0) with
  | Cell.num q => some (formatMoney q)
  | _ => none

/-- `f"{metrics.get('Annualized Return (CAGR)', 0)*100:.2f}%"` — `app.py`
line 168. -/
def cardCAGR (s : Option DataFrame) : Option String :=
  match metricsGetC (buildMetrics s) (Cell.str cagrName) (Cell.num 0) with
  | Cell.num q => some (formatFixed2 (q * 100) ++ pctStr)
  | _ => none

/-- `f"{metrics.get('Volatility (Annualized)', 0)*100:.2f}%"` — `app.py`
line 171. -/
def cardVol (s : Option DataFrame) : Option String :=
  match metricsGetC (buildMetrics s) (Cell.str volLookupName) (Cell.num 0) with
  | Cell.num q => some (formatFixed2 (q * 100) ++ pctStr)
  | _ => none

/-- `f"{metrics.get('Sharpe Ratio', 0):.2f}"` — `app.py` line 174. -/
def cardSharpe (s : Option DataFrame) : Option String :=
  match metricsGetC (buildMetrics s) (Cell.str sharpeName) (Cell.num 0) with
  | Cell.num q => some (formatFixed2 q)
  | _ => none

/-- A Summary Metrics sheet holding exactly the spec's seven metric rows,
in the spec's order, with the given stored values. -/
def mkSpecSummary (v1 v2 v3 v4 v5 v6 v7 : ℚ) : DataFrame :=
  ⟨[metricColName, valueColName], (List.range 7).map (fun i => Cell.num i),
    [[Cell.str finalValueName, Cell.num v1],
      [Cell.str totalPnLName, Cell.num v2],
      [Cell.str cagrName, Cell.num v3],
      [Cell.str annVolName, Cell.num v4],
      [Cell.str sharpeName, Cell.num v5],
      [Cell.str betaName, Cell.num v6],
      [Cell.str maxDDName, Cell.num v7]]⟩

def exSpecSummary : DataFrame := mkSpecSummary 1 2 3 4 5 6 7

/-- C2 counterexample: on a Summary Metrics sheet whose Metric column is
exactly the seven spec names (stored values 1..7), the Volatility card's
lookup key `Volatility (Annualized)` is NOT one of the seven names: its
lookup misses and falls back to the default 0, even though the sheet stores
the value 4 under the spec's name `Annualized Volatility`. -/
theorem volatility_lookup_name_mismatch :
    volLookupName ∉ specMetricNames ∧
      volLookupName ∈ viewerLookupNames ∧
      metricsGetC (buildMetrics (some exSpecSummary)) (Cell.str volLookupName)
          (Cell.num 0) = Cell.num 0 ∧
      metricsGetC (buildMetrics (some exSpecSummary)) (Cell.str annVolName)
          (Cell.num 0) = Cell.num 4 :=
  ⟨by decide, by decide, rfl, rfl⟩

/-- C2 (amended): on every Summary Metrics sheet carrying exactly the seven
spec names in order, three of the viewer's four card lookups (`Final
Value`, `Annualized Return (CAGR)`, `Sharpe Ratio`) use spec names, succeed
and display the stored value; the Volatility card instead looks up
`Volatility (Annualized)`, which is absent, so it renders the default
`0.00%` while the stored `Annualized Volatility` value sits unused in the
sheet. -/
theorem summary_cards_on_spec_sheet (v1 v2 v3 v4 v5 v6 v7 : ℚ) :
    (mkSpecSummary v1 v2 v3 v4 v5 v6 v7).rows.map
        (fun r => (r.get? 0).getD Cell.missing) = specMetricNames.map Cell.str ∧
      cardFinalValue (some (mkSpecSummary v1 v2 v3 v4 v5 v6 v7)) =
        some (formatMoney v1) ∧
      cardCAGR (some (mkSpecSummary v1 v2 v3 v4 v5 v6 v7)) =
        some (formatFixed2 (v3 * 100) ++ pctStr) ∧
      cardSharpe (some (mkSpecSummary v1 v2 v3 v4 v5 v6 v7)) =
        some (formatFixed2 v5) ∧
      metricsGetC (buildMetrics (some (mkSpecSummary v1 v2 v3 v4 v5 v6 v7)))
          (Cell.str annVolName) (Cell.num 0) = Cell.num v4 ∧
      cardVol (some (mkSpecSummary v1 v2 v3 v4 v5 v6 v7)) = some pctZeroStr := by
  refine ⟨rfl, rfl, rfl, rfl, rfl, ?_⟩
  show some (formatFixed2 ((0 : ℚ) * 100) ++ pctStr) = some pctZeroStr
  norm_num
  decide

/-- A key that never appears in the metrics dictionary makes `dict.get`
return the supplied default. -/
theorem metricsGetC_absent (m : List (Cell × Cell)) (k d : Cell)
    (h : k ∉ m.map Prod.fst) : metricsGetC m k d = d := by
  have hfind : m.reverse.find? (fun p => p.1 == k) = none := by
    rw [List.find?_eq_none]
    intro x hx
    simp only [beq_iff_eq]
    intro hcon
    exact h (List.mem_map.mpr ⟨x, List.mem_reverse.mp hx, hcon⟩)
  simp [metricsGetC, hfind]

/-- C10: when a looked-up metric name is absent from the Summary Metrics
sheet, the viewer does not fail — the corresponding card renders the
default 0, formatted as `$0`, `0.00%` or `0.00`. -/
theorem cards_default_when_metric_absent (s : Option DataFrame) :
    ((Cell.str finalValueName) ∉ (buildMetrics s).map Prod.fst →
        cardFinalValue s = some moneyZeroStr) ∧
      ((Cell.str cagrName) ∉ (buildMetrics s).map Prod.fst →
        cardCAGR s = some pctZeroStr) ∧
      ((Cell.str volLookupName) ∉ (buildMetrics s).map Prod.fst →
        cardVol s = some pctZeroStr) ∧
      ((Cell.str sharpeName) ∉ (buildMetrics s).map Prod.fst →
        cardSharpe s = some numZeroStr) := by
  refine ⟨fun h => ?_, fun h => ?_, fun h => ?_, fun h => ?_⟩
  · unfold cardFinalValue
    rw [metricsGetC_absent _ _ _ h]
    decide
  · unfold cardCAGR
    rw [metricsGetC_absent _ _ _ h]
    show some (formatFixed2 ((0 : ℚ) * 100) ++ pctStr) = some pctZeroStr
    norm_num
    decide
  · unfold cardVol
    rw [metricsGetC_absent _ _ _ h]
    show some (formatFixed2 ((0 : ℚ) * 100) ++ pctStr) = some pctZeroStr
    norm_num
    decide
  · unfold cardSharpe
    rw [metricsGetC_absent _ _ _ h]
    decide

/-- A Summary Metrics sheet containing none of the four looked-up names. -/
def exOtherSummary : DataFrame :=
  ⟨[metricColName, valueColName], [Cell.num 0], [[Cell.str totalPnLName, Cell.num 9]]⟩

/-- C10 witness: on a concrete sheet lacking all four looked-up names,
every card renders its formatted default. -/
theorem cards_default_when_metric_absent_w :
    cardFinalValue (some exOtherSummary) = some moneyZeroStr ∧
      cardCAGR (some exOtherSummary) = some pctZeroStr ∧
      cardVol (some exOtherSummary) = some pctZeroStr ∧
      cardSharpe (some exOtherSummary) = some numZeroStr :=
  ⟨(cards_default_when_metric_absent (some exOtherSummary)).1 (by decide),
    (cards_default_when_metric_absent (some exOtherSummary)).2.1 (by decide),
    (cards_default_when_metric_absent (some exOtherSummary)).2.2.1 (by decide),
    (cards_default_when_metric_absent (some exOtherSummary)).2.2.2 (by decide)⟩

/-- Modelled from the spec: the Report Generator is absent from `src/` (the
two files are both viewer variants), so `compute_drawdown` (spec §4.1) and
the Drawdown Series (spec §3) are embedded from the spec's words: drawdown
at a date is `(value − running maximum of value so far) / running maximum`,
the running maximum being taken over the whole history with no reset.  The
step accumulator carries the running maximum; starting it at 0 coincides
with "running max of the prefix" on positive value series, which is the
positivity hypothesis of the theorem below. -/
def ddStep (m : ℚ) : List ℚ → List (ℚ × ℚ)
  | [] => []
  | v :: vs => (max m v, (v - max m v) / max m v) :: ddStep (max m v) vs

/-- The generator's running maximum series (`cummax` of the value series). -/
def genRunningMax (vs : List ℚ) : List ℚ := (ddStep 0 vs).map Prod.fst

/-- The generator's Drawdown Series. -/
def gen_drawdown (vs : List ℚ) : List ℚ := (ddStep 0 vs).map Prod.snd

theorem ddStep_length : ∀ (vs : List ℚ) (m : ℚ), (ddStep m vs).length = vs.length := by
  intro vs
  induction vs with
  | nil => intro m; rfl
  | cons v tl ih => intro m; simp [ddStep, ih]

/-- Along `ddStep` on a positive value series (with a nonnegative
accumulator), every drawdown entry is nonpositive and every running-max
entry is positive. -/
theorem ddStep_nonpos : ∀ (vs : List ℚ) (m : ℚ), 0 ≤ m → (∀ v ∈ vs, 0 < v) →
    ∀ p ∈ ddStep m vs, p.2 ≤ 0 ∧ 0 < p.1 := by
  intro vs
  induction vs with
  | nil => intro m _ _ p hp; simp [ddStep] at hp
  | cons v tl ih =>
      intro m hm hpos p hp
      have hv : 0 < v := hpos v (List.mem_cons_self v tl)
      have hm' : 0 < max m v := lt_of_lt_of_le hv (le_max_right m v)
      rw [ddStep] at hp
      rcases List.mem_cons.1 hp with rfl | hp'
      · exact ⟨div_nonpos_iff.mpr (Or.inr ⟨sub_nonpos.2 (le_max_right m v), le_of_lt hm'⟩),
          hm'⟩
      · exact ih (max m v) (le_of_lt hm')
          (fun x hx => hpos x (List.mem_cons_of_mem v hx)) p hp'

/-- At a date where the running maximum is achieved for the first time
(every earlier value is strictly smaller, and the accumulator is still
below the value), the drawdown entry is 0 and the running max equals the
value. -/
theorem ddStep_firstmax : ∀ (vs : List ℚ) (m : ℚ) (i : ℕ), i < vs.length →
    m < (vs.get? i).getD 0 →
    (∀ j, j < i → (vs.get? j).getD 0 < (vs.get? i).getD 0) →
    (ddStep m vs).get? i = some ((vs.get? i).getD 0, 0) := by
  intro vs
  induction vs with
  | nil => intro m i hi; simp at hi
  | cons v tl ih =>
      intro m i hi hlt hpre
      cases i with
      | zero =>
          have hv : (((v :: tl).get? 0).getD 0 : ℚ) = v := rfl
          rw [hv] at hlt
          have hmax : max m v = v := max_eq_right (le_of_lt hlt)
          simp [ddStep, hmax]
      | succ k =>
          have hv : v < (tl.get? k).getD 0 := by
            have h0 := hpre 0 (Nat.succ_pos k)
            simpa using h0
          have hmlt : m < (tl.get? k).getD 0 := by simpa using hlt
          have hm' : max m v < (tl.get? k).getD 0 := max_lt hmlt hv
          have hpre' : ∀ j, j < k → (tl.get? j).getD 0 < (tl.get? k).getD 0 := by
            intro j hj
            have hjj := hpre (j + 1) (Nat.succ_lt_succ hj)
            simpa using hjj
          have hk : k < tl.length := by simpa using hi
          have hrec := ih (max m v) k hk hm' hpre'
          simpa [ddStep] using hrec

/-- The running-max entries of `ddStep` form an ascending chain from the
accumulator. -/
theorem ddStep_fst_chain : ∀ (vs : List ℚ) (m : ℚ),
    List.Chain (· ≤ ·) m ((ddStep m vs).map Prod.fst) := by
  intro vs
  induction vs with
  | nil => intro m; simp [ddStep]
  | cons v tl ih =>
      intro m
      rw [ddStep]
      simp only [List.map_cons]
      exact List.Chain.cons (le_max_left m v) (ih (max m v))

/-- C8 (spec-modelled): for every positive Portfolio Value Series, the
generator's Drawdown Series is ≤ 0 at every date, equals 0 at every date
where the running maximum is achieved for the first time, and the running
maximum itself is monotonically non-decreasing over the whole history. -/
theorem gen_drawdown_props (vs : List ℚ) (hpos : ∀ v ∈ vs, 0 < v) :
    (∀ d ∈ gen_drawdown vs, d ≤ 0) ∧
      (∀ i, i < vs.length →
        (∀ j, j < i → (vs.get? j).getD 0 < (vs.get? i).getD 0) →
        (gen_drawdown vs).get? i = some 0) ∧
      (∀ i j, i ≤ j → j < vs.length →
        (genRunningMax vs).getD i 0 ≤ (genRunningMax vs).getD j 0) := by
  refine ⟨?_, ?_, ?_⟩
  · intro d hd
    simp only [gen_drawdown, List.mem_map] at hd
    obtain ⟨p, hp, rfl⟩ := hd
    exact (ddStep_nonpos vs 0 le_rfl hpos p hp).1
  · intro i hi hpre
    have hvi : 0 < (vs.get? i).getD 0 := by
      cases hg : vs.get? i with
      | none =>
          rw [List.get?_eq_none] at hg
          omega
      | some x =>
          have hx := hpos x (List.get?_mem hg)
          simpa using hx
    have hstep := ddStep_firstmax vs 0 i hi hvi hpre
    simp only [gen_drawdown, List.get?_map, hstep, Option.map_some']
  · intro i j hij hj
    have hlen : (genRunningMax vs).length = vs.length := by
      simp [genRunningMax, ddStep_length]
    have hchain : List.Chain' (· ≤ ·) (0 :: (ddStep 0 vs).map Prod.fst) :=
      ddStep_fst_chain vs 0
    have hpw : (genRunningMax vs).Pairwise (· ≤ ·) :=
      List.chain'_iff_pairwise.mp hchain.tail
    rcases Nat.lt_or_ge i j with hlt | hge
    · have hi : i < (genRunningMax vs).length := by omega
      have hjl : j < (genRunningMax vs).length := by omega
      rw [List.getD_eq_getElem _ _ hi, List.getD_eq_getElem _ _ hjl]
      exact List.pairwise_iff_getElem.mp hpw i j hi hjl hlt
    · have hij' : i = j := by omega
      rw [hij']

def ddExampleVals : List ℚ := [2, 1, 3]

/-- C8 witness: on the concrete positive value series `[2, 1, 3]` the
drawdown is 0 at date 0 and at date 2 (both first-time running-max dates)
and the running maximum is non-decreasing between dates 0 and 2. -/
theorem gen_drawdown_props_w :
    (gen_drawdown ddExampleVals).get? 2 = some 0 ∧
      (gen_drawdown ddExampleVals).get? 0 = some 0 ∧
      (genRunningMax ddExampleVals).getD 0 0 ≤ (genRunningMax ddExampleVals).getD 2 0 :=
  ⟨(gen_drawdown_props ddExampleVals (by decide)).2.1 2 (by decide) (by decide),
    (gen_drawdown_props ddExampleVals (by decide)).2.1 0 (by decide) (by decide),
    (gen_drawdown_props ddExampleVals (by decide)).2.2 0 2 (by decide) (by decide)⟩
